import Mathlib

/-!
Shallow embedding of the color-engine core (`src/main.py`) and proofs about it.

Numeric model: Python floats are embedded as exact rationals (ℚ); Python ints
as ℤ.  Python's `%` operator and `int(...)` truncation are modelled explicitly
(`pymod`, `pytrunc`).  Exceptions (`ValueError` from `int(s, 16)`, `KeyError`
from dict/`harmonies` lookups) are modelled as `Option`/`Except` failures.
-/

set_option maxRecDepth 16000

set_option maxHeartbeats 1000000

/-- HSL triple `(hue, saturation, lightness)` as used by the source. -/
abbrev Hsl := ℚ × ℚ × ℚ

/-- RGB triple of Python ints. -/
abbrev Rgb := ℤ × ℤ × ℤ

/-- Python's `%` on reals: `x % y = x - y * floor (x / y)` (result has the
sign of `y`; for `y > 0` it is always in `[0, y)`). -/
def pymod (x y : ℚ) : ℚ := x - y * (⌊x / y⌋ : ℚ)

/-- Python's `int(x)` on a real: truncation toward zero. -/
def pytrunc (x : ℚ) : ℤ := if 0 ≤ x then ⌊x⌋ else ⌈x⌉

/-- Hex digit value of a character, as accepted by CPython `int(s, 16)`
(ASCII `0-9`, `a-f`, `A-F`). -/
def hexDigitVal (c : Char) : Option ℕ :=
  if 48 ≤ c.toNat ∧ c.toNat ≤ 57 then some (c.toNat - 48)
  else if 97 ≤ c.toNat ∧ c.toNat ≤ 102 then some (c.toNat - 87)
  else if 65 ≤ c.toNat ∧ c.toNat ≤ 70 then some (c.toNat - 55)
  else none

/-- Digit loop of CPython `int(s, 16)`: hex digits with single underscores
allowed between digits, accumulating a value; at least one digit has already
been read when this loop starts. -/
def hexDigitsLoop : List Char → ℕ → Option ℕ
  | [], acc => some acc
  | c :: rest, acc =>
    if c = '_' then
      match rest with
      | [] => none
      | d :: rest2 =>
        match hexDigitVal d with
        | some v => hexDigitsLoop rest2 (16 * acc + v)
        | none => none
    else
      match hexDigitVal c with
      | some v => hexDigitsLoop rest (16 * acc + v)
      | none => none

/-- First digit of CPython `int(s, 16)`: the digit sequence must be nonempty
and must start with a real digit (not an underscore). -/
def startHexDigits : List Char → Option ℕ
  | [] => none
  | c :: rest =>
    match hexDigitVal c with
    | some v => hexDigitsLoop rest v
    | none => none

/-- CPython `int(s, 16)` after sign handling: optional `0x`/`0X` prefix
(optionally followed by one underscore), then digits. -/
def pyIntHexCore (l : List Char) : Option ℕ :=
  match l with
  | '0' :: x :: rest =>
    if x = 'x' ∨ x = 'X' then
      match rest with
      | '_' :: rest2 => startHexDigits rest2
      | _ => startHexDigits rest
    else startHexDigits l
  | _ => startHexDigits l

/-- ASCII whitespace stripped by CPython `int(s, 16)`. -/
def isPyWs (c : Char) : Bool := (9 ≤ c.toNat && c.toNat ≤ 13) || c.toNat == 32

/-- Strip leading and trailing whitespace from a character list. -/
def stripWs (l : List Char) : List Char :=
  ((l.dropWhile fun c => isPyWs c).reverse.dropWhile fun c => isPyWs c).reverse

/-- Model of CPython `int(s, 16)` on ASCII strings: surrounding whitespace,
optional sign, optional `0x` prefix, hex digits with single underscores
between digits.  `none` models a raised `ValueError`. -/
def pyIntHex (s : String) : Option ℤ :=
  match stripWs s.data with
  | '+' :: rest => (pyIntHexCore rest).map (fun n => (n : ℤ))
  | '-' :: rest => (pyIntHexCore rest).map (fun n => -(n : ℤ))
  | l => (pyIntHexCore l).map (fun n => (n : ℤ))

/-- Python slice `s[i:j]` (for `0 ≤ i ≤ j`), clamped at the string's end. -/
def strSlice (s : String) (i j : ℕ) : String := String.mk ((s.data.drop i).take (j - i))

/-- `hex_to_rgb` from the source: parses `hex_color[1:3]`, `[3:5]`, `[5:7]`
as base-16 integers.  `none` models the `ValueError` raised by `int` when a
slice does not parse; no other validation is performed by the source. -/
def hex_to_rgb (hex_color : String) : Option Rgb :=
  match pyIntHex (strSlice hex_color 1 3), pyIntHex (strSlice hex_color 3 5),
      pyIntHex (strSlice hex_color 5 7) with
  | some r, some g, some b => some (r, g, b)
  | _, _, _ => none

/-- Lowercase hex digit character for a value `< 16`, as in Python `%x`. -/
def toHexDigitChar (n : ℕ) : Char :=
  if n < 10 then Char.ofNat (48 + n) else Char.ofNat (87 + n)

/-- Hex digit expansion of a natural number (fuelled, most significant
digit first); `fuel ≥ n ≥ 1` suffices. -/
def natToHexAux : ℕ → ℕ → List Char → List Char
  | 0, _, acc => acc
  | _ + 1, 0, acc => acc
  | fuel + 1, n, acc => natToHexAux fuel (n / 16) (toHexDigitChar (n % 16) :: acc)

/-- Lowercase hex representation of a natural number, as Python `%x`. -/
def natToHex (n : ℕ) : List Char := if n = 0 then ['0'] else natToHexAux n n []

/-- Left-pad with `'0'` to width `w`. -/
def padZeroTo (w : ℕ) (l : List Char) : List Char := List.replicate (w - l.length) '0' ++ l

/-- Python `f"{n:02x}"`: zero-padded lowercase hex of width 2 (for a negative
int the sign counts toward the width). -/
def fmt02x (n : ℤ) : String :=
  if n < 0 then String.mk ('-' :: padZeroTo 1 (natToHex n.natAbs))
  else String.mk (padZeroTo 2 (natToHex n.toNat))

/-- `rgb_to_hex` from the source: `f"#{r:02x}{g:02x}{b:02x}"`. -/
def rgb_to_hex (rgb : Rgb) : String :=
  "#" ++ fmt02x rgb.1 ++ fmt02x rgb.2.1 ++ fmt02x rgb.2.2

/-- CPython `colorsys.rgb_to_hls` on exact rationals. -/
def rgb_to_hls (r g b : ℚ) : ℚ × ℚ × ℚ :=
  let maxc := max r (max g b)
  let minc := min r (min g b)
  let sumc := maxc + minc
  let rangec := maxc - minc
  let l := sumc / 2
  if minc = maxc then (0, l, 0)
  else
    let s := if l ≤ 1/2 then rangec / sumc else rangec / (2 - sumc)
    let rc := (maxc - r) / rangec
    let gc := (maxc - g) / rangec
    let bc := (maxc - b) / rangec
    let h := if r = maxc then bc - gc else if g = maxc then 2 + rc - bc else 4 + gc - rc
    (pymod (h / 6) 1, l, s)

/-- Body of CPython `colorsys._v` after the `hue = hue % 1.0`
reassignment. -/
def colorsys_v_core (m1 m2 u : ℚ) : ℚ :=
  if u < 1/6 then m1 + (m2 - m1) * u * 6
  else if u < 1/2 then m2
  else if u < 2/3 then m1 + (m2 - m1) * (2/3 - u) * 6
  else m1

/-- CPython `colorsys._v`: piecewise-linear channel interpolation. -/
def colorsys_v (m1 m2 hue : ℚ) : ℚ := colorsys_v_core m1 m2 (pymod hue 1)

/-- CPython `colorsys.hls_to_rgb` on exact rationals. -/
def hls_to_rgb (h l s : ℚ) : ℚ × ℚ × ℚ :=
  if s = 0 then (l, l, l)
  else
    let m2 := if l ≤ 1/2 then l * (1 + s) else l + s - l * s
    let m1 := 2 * l - m2
    (colorsys_v m1 m2 (h + 1/3), colorsys_v m1 m2 h, colorsys_v m1 m2 (h - 1/3))

/-- `rgb_to_hsl` from the source: normalize channels, call
`colorsys.rgb_to_hls` (which returns `(h, l, s)`), and reorder/rescale to
`(h*360, s*100, l*100)`. -/
def rgb_to_hsl (rgb : Rgb) : Hsl :=
  let r := (rgb.1 : ℚ) / 255
  let g := (rgb.2.1 : ℚ) / 255
  let b := (rgb.2.2 : ℚ) / 255
  let hls := rgb_to_hls r g b
  (hls.1 * 360, hls.2.2 * 100, hls.2.1 * 100)

/-- `hsl_to_rgb` from the source: rescale, call `colorsys.hls_to_rgb` with
arguments `(h, l, s)`, and truncate each channel of `x * 255` with `int`. -/
def hsl_to_rgb (hsl : Hsl) : Rgb :=
  let rgb := hls_to_rgb (hsl.1 / 360) (hsl.2.2 / 100) (hsl.2.1 / 100)
  (pytrunc (rgb.1 * 255), pytrunc (rgb.2.1 * 255), pytrunc (rgb.2.2 * 255))

/-- `adjust_hsl` from the source: hue wraps modulo 360, saturation and
lightness are clamped to `[0, 100]`.  Total: none of the Python operations
used (`%`, `max`, `min`, `+`) can raise. -/
def adjust_hsl (hsl : Hsl) (hue_shift saturation_adjust lightness_adjust : ℚ) : Hsl :=
  (pymod (hsl.1 + hue_shift) 360,
   max 0 (min 100 (hsl.2.1 + saturation_adjust)),
   max 0 (min 100 (hsl.2.2 + lightness_adjust)))

/-- `generate_harmony_colors` from the source: the four `harmonies` dict
entries, keyed by the strings `'1'`-`'4'`; `none` models the `KeyError` on
any other key.  Each derived entry reuses the base saturation and
lightness. -/
def generate_harmony_colors (base_hsl : Hsl) (harmony_type : String) : Option (List Hsl) :=
  let base_hue := base_hsl.1
  let hues : Option (List ℚ) :=
    if harmony_type = "1" then some [base_hue, pymod (base_hue + 180) 360]
    else if harmony_type = "2" then
      some [base_hue, pymod (base_hue + 30) 360, pymod (base_hue - 30) 360]
    else if harmony_type = "3" then
      some [base_hue, pymod (base_hue + 120) 360, pymod (base_hue - 120) 360]
    else if harmony_type = "4" then
      some [base_hue, pymod (base_hue + 90) 360, pymod (base_hue + 180) 360,
        pymod (base_hue + 270) 360]
    else none
  hues.map (List.map (fun h => (h, base_hsl.2.1, base_hsl.2.2)))

/-- `generate_shades` (nested in `generate_palette`): lightness `-30`, the
color itself, lightness `+30` — in that (darker, base, lighter) order. -/
def generate_shades (color : Hsl) : List Hsl :=
  [adjust_hsl color 0 0 (-30), color, adjust_hsl color 0 0 30]

/-- Input to `generate_palette`: the source duck-types a single hex string
versus a dict of role name → hex string (Python dicts: unique keys, insertion
order). -/
inductive ColorsInput where
  | seed (c : String)
  | roles (m : List (String × String))
deriving DecidableEq, Repr

/-- Error taxonomy for the exceptions `generate_palette` can raise:
`ValueError` from `int` inside `hex_to_rgb`, `KeyError` from the
`harmonies` dict, and `KeyError('primary')` from `palette['primary']` /
`hsl_colors['primary']` in the brand-color section. -/
inductive PalErr where
  | formatError
  | unknownScheme
  | missingPrimary
deriving DecidableEq, Repr

/-- The palette dict built by `generate_palette`: role keys mapped to shade
ramps, plus the fixed `semantic`, `surface` and `brand` groups. -/
structure Palette where
  roles : List (String × List String)
  semantic : List (String × String)
  surface : List (String × String)
  brand : List (String × String)
deriving DecidableEq, Repr

/-- Line 50 of the source: a bare string becomes `{'primary': colors}`. -/
def normalizeColors : ColorsInput → List (String × String)
  | .seed c => [("primary", c)]
  | .roles m => m

/-- Line 53 of the source: convert every supplied role color to HSL;
any `ValueError` from `int` aborts the comprehension. -/
def toHsl : List (String × String) → Option (List (String × Hsl))
  | [] => some []
  | kv :: rest =>
    match hex_to_rgb kv.2, toHsl rest with
    | some rgb, some t => some ((kv.1, rgb_to_hsl rgb) :: t)
    | _, _ => none

/-- Lines 58-59 of the source: add `secondary` from harmony index 1 when
absent (Python dict assignment appends a new key at the end).  The `getD`
fallback is never reached: every harmony list has length ≥ 2, so the
source's `harmony_colors[1]` never raises. -/
def deriveSecondary (m : List (String × Hsl)) (harmony_colors : List Hsl) (primary : Hsl) :
    List (String × Hsl) :=
  if (m.lookup "secondary").isSome then m
  else m ++ [("secondary", harmony_colors.getD 1 primary)]

/-- Lines 60-61 of the source: add `tertiary` from harmony index 2 when
absent and the scheme yields more than 2 hues (the length guard is the
source's own, so `harmony_colors[2]` never raises). -/
def deriveTertiary (m : List (String × Hsl)) (harmony_colors : List Hsl) (primary : Hsl) :
    List (String × Hsl) :=
  if (m.lookup "tertiary").isNone ∧ 2 < harmony_colors.length then
    m ++ [("tertiary", harmony_colors.getD 2 primary)]
  else m

/-- Lines 56-61 of the source: harmony derivation runs only when `primary`
is present and fewer than 3 roles were supplied; `none` models the
`KeyError` raised by the `harmonies` dict for an unknown key. -/
def deriveMissing (m : List (String × Hsl)) (harmony : String) : Option (List (String × Hsl)) :=
  match m.lookup "primary" with
  | none => some m
  | some primary =>
    if m.length < 3 then
      (generate_harmony_colors primary harmony).map (fun harmony_colors =>
        deriveTertiary (deriveSecondary m harmony_colors primary) harmony_colors primary)
    else some m

/-- Line 64 of the source: apply the global adjustment to every role. -/
def applyAdjust (m : List (String × Hsl)) (hs sa la : ℚ) : List (String × Hsl) :=
  m.map (fun kv => (kv.1, adjust_hsl kv.2 hs sa la))

/-- Hex rendering of one HSL value (`rgb_to_hex(hsl_to_rgb(shade))`). -/
def renderShade (sh : Hsl) : String := rgb_to_hex (hsl_to_rgb sh)

/-- Lines 74-75 of the source: each role's shade ramp, rendered to hex. -/
def rampsOf (m : List (String × Hsl)) : List (String × List String) :=
  m.map (fun kv => (kv.1, (generate_shades kv.2).map renderShade))

/-- Line 78 of the source: the `semantic_hues` dict, in insertion order. -/
def semantic_hues : List (String × ℚ) :=
  [("error", 0), ("success", 120), ("info", 200), ("warning", 40)]

/-- Lines 79-80 of the source: semantic colors from `(h, 100, 50)` with the
global adjustment applied, rendered to hex. -/
def semanticColors (hs sa la : ℚ) : List (String × String) :=
  semantic_hues.map (fun kh => (kh.1, renderShade (adjust_hsl (kh.2, 100, 50) hs sa la)))

/-- Lines 84-91 of the source: surface colors, achromatic, lightness levels
selected by comparing `mode` with the exact string `'light'`. -/
def surfaceColors (mode : String) : List (String × String) :=
  let surface_lightness : ℚ := if mode = "light" then 95 else 20
  let on_surface_lightness : ℚ := if mode = "light" then 10 else 90
  [("background", renderShade (0, 0, surface_lightness)),
   ("onSurface", renderShade (0, 0, on_surface_lightness)),
   ("onSurfaceVariant", renderShade (0, 0, 50)),
   ("inverseOnSurface", renderShade (0, 0, 100 - on_surface_lightness))]

/-- Lines 94-98 of the source.  `palette['primary']` and
`hsl_colors['primary']` raise `KeyError('primary')` when no primary role
exists (modelled as `none`); `'secondary' in palette` can only refer to a
role key, since the group keys added before this point are `'semantic'` and
`'surface'`.  Ramps always have exactly 3 entries, so the `getD` defaults at
indices 1 and 2 are never reached (the source's `[1]`/`[2]` never raise). -/
def brandColors (palette : List (String × List String)) (hsl_colors : List (String × Hsl)) :
    Option (List (String × String)) :=
  match palette.lookup "primary", hsl_colors.lookup "primary" with
  | some pShades, some pHsl =>
    some [("newPrimary", pShades.getD 1 ""),
          ("inversePrimary", renderShade (adjust_hsl pHsl 180 0 0)),
          ("newAccent",
            match palette.lookup "secondary" with
            | some sShades => sShades.getD 1 ""
            | none => pShades.getD 2 "")]
  | _, _ => none

/-- `generate_palette` from the source, staged exactly as the Python control
flow: normalize input, convert to HSL (possible `ValueError`), derive missing
roles (possible `KeyError` on the harmony dict), apply the global adjustment,
build ramps, semantic, surface, and brand groups (possible
`KeyError('primary')`). -/
def generate_palette (colors : ColorsInput) (mode harmony : String)
    (hue_shift saturation_adjust lightness_adjust : ℚ) : Except PalErr Palette :=
  match toHsl (normalizeColors colors) with
  | none => .error .formatError
  | some hsl0 =>
    match deriveMissing hsl0 harmony with
    | none => .error .unknownScheme
    | some hsl1 =>
      match brandColors (rampsOf (applyAdjust hsl1 hue_shift saturation_adjust lightness_adjust))
          (applyAdjust hsl1 hue_shift saturation_adjust lightness_adjust) with
      | none => .error .missingPrimary
      | some brand =>
        .ok ⟨rampsOf (applyAdjust hsl1 hue_shift saturation_adjust lightness_adjust),
          semanticColors hue_shift saturation_adjust lightness_adjust,
          surfaceColors mode, brand⟩

/-- All final color strings of a palette: every ramp entry and every
semantic, surface and brand value. -/
def paletteStrings (p : Palette) : List String :=
  (p.roles.map Prod.snd).flatten ++ p.semantic.map Prod.snd ++
    p.surface.map Prod.snd ++ p.brand.map Prod.snd

/-- Lowercase hexadecimal digit (`0-9`, `a-f`). -/
def isLowerHexDigit (c : Char) : Bool :=
  (48 ≤ c.toNat && c.toNat ≤ 57) || (97 ≤ c.toNat && c.toNat ≤ 102)

/-- Valid `HexColor` per the data model: `'#'` followed by exactly 6
lowercase hexadecimal digits. -/
def isValidHex (s : String) : Bool :=
  match s.data with
  | '#' :: rest => rest.length == 6 && rest.all isLowerHexDigit
  | _ => false

deriving instance DecidableEq for Except

attribute [local semireducible] Rat.mul Rat.add Rat.sub Rat.inv

/-! ### Arithmetic facts about the Python operators -/

theorem pymod_eq_mul_fract (x : ℚ) {y : ℚ} (hy : y ≠ 0) :
    pymod x y = y * Int.fract (x / y) := by
  rw [pymod, Int.fract, mul_sub, mul_div_cancel₀ x hy]

theorem pymod_nonneg (x : ℚ) {y : ℚ} (hy : 0 < y) : 0 ≤ pymod x y := by
  rw [pymod_eq_mul_fract x hy.ne.symm]
  exact mul_nonneg hy.le (Int.fract_nonneg _)

theorem pymod_lt (x : ℚ) {y : ℚ} (hy : 0 < y) : pymod x y < y := by
  rw [pymod_eq_mul_fract x hy.ne.symm]
  calc y * Int.fract (x / y) < y * 1 := (mul_lt_mul_left hy).2 (Int.fract_lt_one _)
    _ = y := mul_one y

theorem pymod_eq_self {x y : ℚ} (h0 : 0 ≤ x) (hxy : x < y) : pymod x y = x := by
  have hy : 0 < y := lt_of_le_of_lt h0 hxy
  rw [pymod, Int.floor_eq_zero_iff.2 ⟨div_nonneg h0 hy.le, (div_lt_one hy).2 hxy⟩]
  simp

theorem pymod_add_self (x y : ℚ) : pymod (x + y) y = pymod x y := by
  rcases eq_or_ne y 0 with h | h
  · simp [pymod, h]
  · rw [pymod, pymod, add_div, div_self h, Int.floor_add_one]
    push_cast
    ring

theorem clamp_nonneg (x : ℚ) : 0 ≤ max 0 (min 100 x) := le_max_left 0 _

theorem clamp_le (x : ℚ) : max 0 (min 100 x) ≤ 100 :=
  max_le (by norm_num) (min_le_left _ _)

theorem clamp_eq_self {x : ℚ} (h0 : 0 ≤ x) (h1 : x ≤ 100) : max 0 (min 100 x) = x := by
  rw [min_eq_right h1, max_eq_right h0]

/-- The saturation and lightness produced by `adjust_hsl` are always in
`[0, 100]`, whatever the input. -/
theorem adjust_hsl_sl_mem (q : Hsl) (hs sa la : ℚ) :
    0 ≤ (adjust_hsl q hs sa la).2.1 ∧ (adjust_hsl q hs sa la).2.1 ≤ 100 ∧
      0 ≤ (adjust_hsl q hs sa la).2.2 ∧ (adjust_hsl q hs sa la).2.2 ≤ 100 :=
  ⟨clamp_nonneg _, clamp_le _, clamp_nonneg _, clamp_le _⟩

/-- A pure hue shift leaves in-range saturation and lightness unchanged. -/
theorem adjust_hsl_hue_only (q : Hsl) (hs : ℚ) (h0s : 0 ≤ q.2.1) (h1s : q.2.1 ≤ 100)
    (h0l : 0 ≤ q.2.2) (h1l : q.2.2 ≤ 100) :
    (adjust_hsl q hs 0 0).2.1 = q.2.1 ∧ (adjust_hsl q hs 0 0).2.2 = q.2.2 := by
  unfold adjust_hsl
  rw [add_zero, add_zero]
  exact ⟨clamp_eq_self h0s h1s, clamp_eq_self h0l h1l⟩

/-! ### Association-list facts -/

theorem lookup_map_value {β γ : Type} (f : β → γ) (l : List (String × β)) (k : String) :
    (l.map (fun kv => (kv.1, f kv.2))).lookup k = (l.lookup k).map f := by
  induction l with
  | nil => rfl
  | cons a t ih =>
    by_cases h : k == a.1 <;> simp [List.lookup, h, ih]

theorem lookup_append_left {β : Type} {l : List (String × β)} (l2 : List (String × β))
    {k : String} {b : β} (h : l.lookup k = some b) : (l ++ l2).lookup k = some b := by
  induction l with
  | nil => simp [List.lookup_nil] at h
  | cons a t ih =>
    obtain ⟨k1, b1⟩ := a
    cases hk : (k == k1) <;> simp only [List.cons_append, List.lookup, hk] at h ⊢
    · exact ih h
    · exact h

theorem lookup_append_right {β : Type} {l : List (String × β)} (l2 : List (String × β))
    {k : String} (h : l.lookup k = none) : (l ++ l2).lookup k = l2.lookup k := by
  induction l with
  | nil => rfl
  | cons a t ih =>
    obtain ⟨k1, b1⟩ := a
    cases hk : (k == k1) <;> simp only [List.cons_append, List.lookup, hk] at h ⊢
    · exact ih h
    · exact Option.noConfusion h

/-! ### Structure of the palette pipeline -/

theorem toHsl_isSome {m : List (String × String)}
    (h : ∀ kv ∈ m, (hex_to_rgb kv.2).isSome) : (toHsl m).isSome := by
  induction m with
  | nil => rfl
  | cons a t ih =>
    have ha := h a (List.mem_cons_self a t)
    have ht := ih (fun kv hkv => h kv (List.mem_cons_of_mem a hkv))
    rcases Option.isSome_iff_exists.1 ha with ⟨rgb, hrgb⟩
    rcases Option.isSome_iff_exists.1 ht with ⟨tl, htl⟩
    simp [toHsl, hrgb, htl]

theorem toHsl_length {m : List (String × String)} {hm : List (String × Hsl)}
    (h : toHsl m = some hm) : hm.length = m.length := by
  induction m generalizing hm with
  | nil =>
    simp only [toHsl] at h
    cases h
    rfl
  | cons a t ih =>
    cases hrgb : hex_to_rgb a.2 with
    | none => simp [toHsl, hrgb] at h
    | some rgb =>
      cases htl : toHsl t with
      | none => simp [toHsl, hrgb, htl] at h
      | some tl =>
        simp only [toHsl, hrgb, htl] at h
        cases h
        simp [ih htl]

theorem toHsl_lookup {m : List (String × String)} {hm : List (String × Hsl)}
    (h : toHsl m = some hm) (k : String) :
    hm.lookup k = (m.lookup k).bind (fun c => (hex_to_rgb c).map rgb_to_hsl) := by
  induction m generalizing hm with
  | nil =>
    simp only [toHsl] at h
    cases h
    rfl
  | cons a t ih =>
    cases hrgb : hex_to_rgb a.2 with
    | none => simp [toHsl, hrgb] at h
    | some rgb =>
      cases htl : toHsl t with
      | none => simp [toHsl, hrgb, htl] at h
      | some tl =>
        simp only [toHsl, hrgb, htl] at h
        cases h
        obtain ⟨k1, c⟩ := a
        cases hk : (k == k1) <;> simp only [List.lookup, hk]
        · exact ih htl
        · simp [hrgb]

theorem deriveSecondary_lookup {m : List (String × Hsl)} (hc : List Hsl) (primary : Hsl)
    {k : String} {v : Hsl} (h : m.lookup k = some v) :
    (deriveSecondary m hc primary).lookup k = some v := by
  unfold deriveSecondary
  split
  · exact h
  · exact lookup_append_left _ h

theorem deriveTertiary_lookup {m : List (String × Hsl)} (hc : List Hsl) (primary : Hsl)
    {k : String} {v : Hsl} (h : m.lookup k = some v) :
    (deriveTertiary m hc primary).lookup k = some v := by
  unfold deriveTertiary
  split
  · exact lookup_append_left _ h
  · exact h

theorem deriveMissing_of_no_primary {m : List (String × Hsl)} (harmony : String)
    (h : m.lookup "primary" = none) : deriveMissing m harmony = some m := by
  unfold deriveMissing
  rw [h]

theorem deriveMissing_lookup {m m1 : List (String × Hsl)} {harmony : String}
    (h : deriveMissing m harmony = some m1) {k : String} {v : Hsl}
    (hk : m.lookup k = some v) : m1.lookup k = some v := by
  unfold deriveMissing at h
  split at h
  · cases h
    exact hk
  · split at h
    · cases hg : generate_harmony_colors _ harmony with
      | none => rw [hg] at h; exact Option.noConfusion h
      | some hcs =>
        rw [hg, Option.map_some'] at h
        cases h
        exact deriveTertiary_lookup hcs _ (deriveSecondary_lookup hcs _ hk)
    · cases h
      exact hk

theorem generate_harmony_colors_isSome (base_hsl : Hsl) {harmony : String}
    (h : harmony = "1" ∨ harmony = "2" ∨ harmony = "3" ∨ harmony = "4") :
    (generate_harmony_colors base_hsl harmony).isSome := by
  rcases h with h | h | h | h <;> subst h <;> rfl

theorem deriveMissing_isSome (m : List (String × Hsl)) {harmony : String}
    (h : harmony = "1" ∨ harmony = "2" ∨ harmony = "3" ∨ harmony = "4") :
    (deriveMissing m harmony).isSome := by
  unfold deriveMissing
  split
  · rfl
  · split
    · rcases Option.isSome_iff_exists.1 (generate_harmony_colors_isSome _ h) with ⟨hcs, hg⟩
      rw [hg]
      rfl
    · rfl

theorem applyAdjust_lookup (m : List (String × Hsl)) (hs sa la : ℚ) (k : String) :
    (applyAdjust m hs sa la).lookup k = (m.lookup k).map (fun v => adjust_hsl v hs sa la) :=
  lookup_map_value (fun v => adjust_hsl v hs sa la) m k

theorem rampsOf_lookup (m : List (String × Hsl)) (k : String) :
    (rampsOf m).lookup k = (m.lookup k).map (fun v => (generate_shades v).map renderShade) :=
  lookup_map_value (fun v => (generate_shades v).map renderShade) m k

theorem brandColors_eq {palette : List (String × List String)}
    {hsl_colors : List (String × Hsl)} {pShades : List String} {pHsl : Hsl}
    (h1 : palette.lookup "primary" = some pShades) (h2 : hsl_colors.lookup "primary" = some pHsl) :
    brandColors palette hsl_colors =
      some [("newPrimary", pShades.getD 1 ""),
            ("inversePrimary", renderShade (adjust_hsl pHsl 180 0 0)),
            ("newAccent",
              match palette.lookup "secondary" with
              | some sShades => sShades.getD 1 ""
              | none => pShades.getD 2 "")] := by
  unfold brandColors
  rw [h1, h2]

/-- Success-shape of `generate_palette`: a successful run determines every
component of the palette from the intermediate role maps. -/
theorem generate_palette_ok {colors : ColorsInput} {mode harmony : String} {hs sa la : ℚ}
    {p : Palette} (h : generate_palette colors mode harmony hs sa la = .ok p) :
    ∃ hsl0 hsl1, toHsl (normalizeColors colors) = some hsl0 ∧
      deriveMissing hsl0 harmony = some hsl1 ∧
      p.roles = rampsOf (applyAdjust hsl1 hs sa la) ∧
      p.semantic = semanticColors hs sa la ∧
      p.surface = surfaceColors mode ∧
      brandColors (rampsOf (applyAdjust hsl1 hs sa la)) (applyAdjust hsl1 hs sa la) =
        some p.brand := by
  unfold generate_palette at h
  split at h
  · exact Except.noConfusion h
  next hsl0 h0 =>
    split at h
    · exact Except.noConfusion h
    next hsl1 h1 =>
      split at h
      · exact Except.noConfusion h
      next brand h2 =>
        cases h
        exact ⟨hsl0, hsl1, h0, h1, rfl, rfl, rfl, h2⟩

theorem mem_of_lookup {β : Type} {l : List (String × β)} {k : String} {b : β}
    (h : l.lookup k = some b) : (k, b) ∈ l := by
  induction l with
  | nil => exact absurd h (by simp)
  | cons a t ih =>
    obtain ⟨k1, b1⟩ := a
    cases hk : (k == k1) <;> simp only [List.lookup, hk] at h
    · exact List.mem_cons_of_mem _ (ih h)
    · cases h
      have hkk : k = k1 := by simpa using hk
      subst hkk
      exact List.mem_cons_self _ _

theorem brandColors_none {palette : List (String × List String)}
    {hsl_colors : List (String × Hsl)} (h : palette.lookup "primary" = none) :
    brandColors palette hsl_colors = none := by
  cases hq : hsl_colors.lookup "primary" <;> simp [brandColors, h, hq]

/-- Success of `generate_palette` whenever a primary role is supplied, every
supplied color parses, and the harmony key is one of the four known ones. -/
theorem generate_palette_isOk {colors : ColorsInput} (mode : String) {harmony : String}
    (hs sa la : ℚ)
    (hparse : ∀ kv ∈ normalizeColors colors, (hex_to_rgb kv.2).isSome)
    (hprim : ((normalizeColors colors).lookup "primary").isSome)
    (hharm : harmony = "1" ∨ harmony = "2" ∨ harmony = "3" ∨ harmony = "4") :
    (generate_palette colors mode harmony hs sa la).isOk := by
  rcases Option.isSome_iff_exists.1 (toHsl_isSome hparse) with ⟨hsl0, h0⟩
  rcases Option.isSome_iff_exists.1 hprim with ⟨c, hc⟩
  rcases Option.isSome_iff_exists.1 (hparse _ (mem_of_lookup hc)) with ⟨rgb, hrgb⟩
  have h0p : hsl0.lookup "primary" = some (rgb_to_hsl rgb) := by
    rw [toHsl_lookup h0, hc]
    simp [hrgb]
  rcases Option.isSome_iff_exists.1 (deriveMissing_isSome hsl0 hharm) with ⟨hsl1, h1⟩
  have h1p : hsl1.lookup "primary" = some (rgb_to_hsl rgb) := deriveMissing_lookup h1 h0p
  have hap : (applyAdjust hsl1 hs sa la).lookup "primary" =
      some (adjust_hsl (rgb_to_hsl rgb) hs sa la) := by
    rw [applyAdjust_lookup, h1p]
    rfl
  have hrp : (rampsOf (applyAdjust hsl1 hs sa la)).lookup "primary" =
      some ((generate_shades (adjust_hsl (rgb_to_hsl rgb) hs sa la)).map renderShade) := by
    rw [rampsOf_lookup, hap]
    rfl
  unfold generate_palette
  simp only [h0, h1, brandColors_eq hrp hap]
  rfl

/-- C1 (amended): with every supplied color parsing and a recognized harmony
scheme, `generate_palette` fails with the missing-primary `KeyError` exactly
when no `primary` role is supplied — regardless of how many roles are given.
When `primary` is present (as a role or as a single seed), it returns a
Palette. -/
theorem generate_palette_missing_primary
    (m : List (String × String)) (mode harmony : String) (hs sa la : ℚ)
    (hparse : ∀ kv ∈ m, (hex_to_rgb kv.2).isSome)
    (hharm : harmony = "1" ∨ harmony = "2" ∨ harmony = "3" ∨ harmony = "4") :
    (m.lookup "primary" = none →
      generate_palette (.roles m) mode harmony hs sa la = .error .missingPrimary) ∧
    ((m.lookup "primary").isSome →
      (generate_palette (.roles m) mode harmony hs sa la).isOk) ∧
    (∀ c : String, (hex_to_rgb c).isSome →
      (generate_palette (.seed c) mode harmony hs sa la).isOk) := by
  refine ⟨fun hnone => ?_, fun hsome => ?_, fun c hc => ?_⟩
  · rcases Option.isSome_iff_exists.1 (toHsl_isSome (m := m) hparse) with ⟨hsl0, h0⟩
    have h0p : hsl0.lookup "primary" = none := by
      rw [toHsl_lookup h0, hnone]
      rfl
    have h1 : deriveMissing hsl0 harmony = some hsl0 := deriveMissing_of_no_primary harmony h0p
    have hrp : (rampsOf (applyAdjust hsl0 hs sa la)).lookup "primary" = none := by
      rw [rampsOf_lookup, applyAdjust_lookup, h0p]
      rfl
    unfold generate_palette
    simp only [normalizeColors, h0, h1, brandColors_none hrp]
  · exact generate_palette_isOk mode hs sa la hparse hsome hharm
  · refine generate_palette_isOk mode hs sa la ?_ (by simp [normalizeColors, List.lookup]) hharm
    intro kv hkv
    simp only [normalizeColors, List.mem_singleton] at hkv
    subst hkv
    exact hc

/-- C1 counterexample to the claim as stated: three roles supplied
explicitly, none of them `primary` — the claim says `build` returns a
Palette, but the source crashes at `palette['primary']`
(`KeyError('primary')`, the missing-primary failure). -/
theorem generate_palette_three_roles_no_primary :
    generate_palette
        (.roles [("secondary", "#00ff00"), ("tertiary", "#0000ff"), ("accent", "#ff0000")])
        "light" "1" 0 0 0 = .error .missingPrimary := by decide

/-- C1 witness: the spec's error scenario (only `secondary` supplied) does
fail with the missing-primary error, and a primary-bearing input succeeds. -/
theorem generate_palette_missing_primary_witness :
    (generate_palette (.roles [("secondary", "#00ff00")]) "light" "1" 0 0 0 =
        .error .missingPrimary) ∧
    (generate_palette (.roles [("primary", "#ff0000")]) "dark" "3" 5 (-10) 10).isOk := by
  constructor
  · exact (generate_palette_missing_primary [("secondary", "#00ff00")] "light" "1" 0 0 0
      (by decide) (Or.inl rfl)).1 (by decide)
  · exact (generate_palette_missing_primary [("primary", "#ff0000")] "dark" "3" 5 (-10) 10
      (by decide) (Or.inr (Or.inr (Or.inl rfl)))).2.1 (by decide)

/-- Offsets per scheme as the spec states them (reference definition for the
refinement claim C6; the source stores already-shifted hues instead). -/
def schemeOffsets (t : String) : Option (List ℚ) :=
  if t = "1" then some [0, 180]
  else if t = "2" then some [0, 30, -30]
  else if t = "3" then some [0, 120, -120]
  else if t = "4" then some [0, 90, 180, 270]
  else none

/-- C6: for every base hue in the HSL domain `[0, 360)`, the harmony
generator produces exactly the offsets of the selected scheme, each wrapped
into `[0, 360)` by Python's modulo, and every derived color reuses the base
saturation and lightness. -/
theorem generate_harmony_colors_spec (h s l : ℚ) (t : String) (offs : List ℚ)
    (hh0 : 0 ≤ h) (hh1 : h < 360) (ht : schemeOffsets t = some offs) :
    generate_harmony_colors (h, s, l) t =
      some (offs.map (fun o => (pymod (h + o) 360, s, l))) := by
  unfold schemeOffsets at ht
  unfold generate_harmony_colors
  split_ifs at ht with h1 h2 h3 h4
  · subst h1
    cases ht
    simp [add_zero, pymod_eq_self hh0 hh1, sub_eq_add_neg]
  · subst h2
    cases ht
    simp [add_zero, pymod_eq_self hh0 hh1, sub_eq_add_neg]
  · subst h3
    cases ht
    simp [add_zero, pymod_eq_self hh0 hh1, sub_eq_add_neg]
  · subst h4
    cases ht
    simp [add_zero, pymod_eq_self hh0 hh1, sub_eq_add_neg]

/-- C6 witness: the spec's Triadic instance, `generate(200, Triadic)` at
saturation 50 and lightness 40 yields hues `(200, 320, 80)`. -/
theorem generate_harmony_colors_spec_witness :
    generate_harmony_colors (200, 50, 40) "3" =
      some [(200, 50, 40), (320, 50, 40), (80, 50, 40)] := by
  have h := generate_harmony_colors_spec 200 50 40 "3" [0, 120, -120]
    (by norm_num) (by norm_num) (by decide)
  rw [h]
  decide

/-- C7: `adjust_hsl` is total (a plain Lean function on ℚ triples); on a
valid HSL triple the new hue is `(hue + shift) mod 360`, always in
`[0, 360)` hence non-negative, saturation and lightness are clamped to
`[0, 100]`; a hue shift of 370 gives the same hue as a shift of 10, a
saturation adjust of 1000 gives saturation 100, and a lightness adjust of
-1000 gives lightness 0. -/
theorem adjust_hsl_spec (x s l hs sa la : ℚ)
    (hs0 : 0 ≤ s) (hs1 : s ≤ 100) (hl0 : 0 ≤ l) (hl1 : l ≤ 100) :
    adjust_hsl (x, s, l) hs sa la =
      (pymod (x + hs) 360, max 0 (min 100 (s + sa)), max 0 (min 100 (l + la))) ∧
    (0 ≤ (adjust_hsl (x, s, l) hs sa la).1 ∧ (adjust_hsl (x, s, l) hs sa la).1 < 360) ∧
    (adjust_hsl (x, s, l) 370 sa la).1 = (adjust_hsl (x, s, l) 10 sa la).1 ∧
    (adjust_hsl (x, s, l) hs 1000 la).2.1 = 100 ∧
    (adjust_hsl (x, s, l) hs sa (-1000)).2.2 = 0 := by
  refine ⟨rfl, ⟨pymod_nonneg _ (by norm_num), pymod_lt _ (by norm_num)⟩, ?_, ?_, ?_⟩
  · show pymod (x + 370) 360 = pymod (x + 10) 360
    have harr : x + 370 = x + 10 + 360 := by ring
    rw [harr, pymod_add_self]
  · show max 0 (min 100 (s + 1000)) = 100
    rw [min_eq_left (by linarith), max_eq_right (by norm_num)]
  · show max 0 (min 100 (l + -1000)) = 0
    rw [min_eq_right (by linarith), max_eq_left (by linarith)]

/-- C7 witness: the spec's clamp and wrap instances at `(90, 50, 50)`. -/
theorem adjust_hsl_spec_witness :
    adjust_hsl ((90 : ℚ), 50, 50) 20 5 7 =
      (pymod (90 + 20) 360, max 0 (min 100 (50 + 5)), max 0 (min 100 (50 + 7))) ∧
    (0 ≤ (adjust_hsl ((90 : ℚ), 50, 50) 20 5 7).1 ∧
      (adjust_hsl ((90 : ℚ), 50, 50) 20 5 7).1 < 360) ∧
    (adjust_hsl ((90 : ℚ), 50, 50) 370 5 7).1 = (adjust_hsl ((90 : ℚ), 50, 50) 10 5 7).1 ∧
    (adjust_hsl ((90 : ℚ), 50, 50) 20 1000 7).2.1 = 100 ∧
    (adjust_hsl ((90 : ℚ), 50, 50) 20 5 (-1000)).2.2 = 0 :=
  adjust_hsl_spec 90 50 50 20 5 7 (by norm_num) (by norm_num) (by norm_num) (by norm_num)

/-- C9: the surface group of every successfully built palette depends only
on the mode: achromatic renderings at lightness 95/10 (light) or 20/90
(otherwise), variant always 50, inverse at 100 minus the onSurface
lightness; light-mode background renders as `"#f2f2f2"`. -/
theorem generate_palette_surface_spec {colors : ColorsInput} {mode harmony : String}
    {hs sa la : ℚ} {p : Palette}
    (h : generate_palette colors mode harmony hs sa la = .ok p) :
    p.surface.lookup "background" =
      some (renderShade (0, 0, if mode = "light" then (95 : ℚ) else 20)) ∧
    p.surface.lookup "onSurface" =
      some (renderShade (0, 0, if mode = "light" then (10 : ℚ) else 90)) ∧
    p.surface.lookup "onSurfaceVariant" = some (renderShade (0, 0, 50)) ∧
    p.surface.lookup "inverseOnSurface" =
      some (renderShade (0, 0, 100 - (if mode = "light" then (10 : ℚ) else 90))) ∧
    (mode = "light" → p.surface.lookup "background" = some "#f2f2f2") := by
  rcases generate_palette_ok h with ⟨hsl0, hsl1, h0, h1, hroles, hsem, hsurf, hbrand⟩
  rw [hsurf]
  by_cases hm : mode = "light"
  · subst hm
    exact ⟨by decide, by decide, by decide, by decide, fun _ => by decide⟩
  · simp only [surfaceColors, if_neg hm]
    exact ⟨by decide, by decide, by decide, by decide, fun hc => absurd hc hm⟩

/-- C9 witness: a successful light-mode build has the stated surface. -/
theorem generate_palette_surface_spec_witness :
    (generate_palette (.seed "#ff0000") "light" "1" 0 0 0).toOption.map
        (fun p => p.surface.lookup "background") = some (some "#f2f2f2") := by
  cases hp : generate_palette (.seed "#ff0000") "light" "1" 0 0 0 with
  | error e =>
    have : (generate_palette (.seed "#ff0000") "light" "1" 0 0 0).isOk := by decide
    rw [hp] at this
    exact Bool.noConfusion this
  | ok p =>
    have h := (generate_palette_surface_spec hp).2.2.2.2 rfl
    simp [Except.toOption, h]

/-- C10: any mode other than the exact string `"light"` behaves exactly like
`"dark"`: the run is identical (so an unrecognized mode raises no error) and
a successful palette has the dark surface lightness levels 20/90. -/
theorem generate_palette_mode_fallback (colors : ColorsInput) (mode harmony : String)
    (hs sa la : ℚ) (hm : mode ≠ "light") :
    generate_palette colors mode harmony hs sa la =
      generate_palette colors "dark" harmony hs sa la ∧
    ∀ p, generate_palette colors mode harmony hs sa la = .ok p →
      p.surface.lookup "background" = some (renderShade (0, 0, 20)) ∧
      p.surface.lookup "onSurface" = some (renderShade (0, 0, 90)) := by
  have hse : surfaceColors mode = surfaceColors "dark" := by
    simp [surfaceColors, hm]
  constructor
  · unfold generate_palette
    rw [hse]
  · intro p hp
    rcases generate_palette_ok hp with ⟨hsl0, hsl1, h0, h1, hroles, hsem, hsurf, hbrand⟩
    rw [hsurf]
    simp only [surfaceColors, if_neg hm]
    exact ⟨by decide, by decide⟩

/-- C10 witness: the misspelled mode `"Light"` is treated as dark. -/
theorem generate_palette_mode_fallback_witness :
    generate_palette (.seed "#ff0000") "Light" "1" 0 0 0 =
      generate_palette (.seed "#ff0000") "dark" "1" 0 0 0 :=
  (generate_palette_mode_fallback (.seed "#ff0000") "Light" "1" 0 0 0 (by decide)).1

theorem brandColors_some_elim {palette : List (String × List String)}
    {hsl_colors : List (String × Hsl)} {brand : List (String × String)}
    (h : brandColors palette hsl_colors = some brand) :
    ∃ pShades pHsl, palette.lookup "primary" = some pShades ∧
      hsl_colors.lookup "primary" = some pHsl ∧
      brand = [("newPrimary", pShades.getD 1 ""),
               ("inversePrimary", renderShade (adjust_hsl pHsl 180 0 0)),
               ("newAccent",
                 match palette.lookup "secondary" with
                 | some sShades => sShades.getD 1 ""
                 | none => pShades.getD 2 "")] := by
  cases h1 : palette.lookup "primary" with
  | none =>
    rw [brandColors_none h1] at h
    exact Option.noConfusion h
  | some pShades =>
    cases h2 : hsl_colors.lookup "primary" with
    | none =>
      have hn : brandColors palette hsl_colors = none := by simp [brandColors, h1, h2]
      rw [hn] at h
      exact Option.noConfusion h
    | some pHsl =>
      rw [brandColors_eq h1 h2] at h
      injection h with h
      exact ⟨pShades, pHsl, rfl, rfl, h.symm⟩

theorem lookup_brand_inversePrimary (a b c : String) :
    (([("newPrimary", a), ("inversePrimary", b), ("newAccent", c)]) :
      List (String × String)).lookup "inversePrimary" = some b := rfl

theorem lookup_brand_newAccent (a b c : String) :
    (([("newPrimary", a), ("inversePrimary", b), ("newAccent", c)]) :
      List (String × String)).lookup "newAccent" = some c := rfl

/-- C2 (amended): in every successfully built palette, `newAccent` is the
*base* (middle, index 1) shade of secondary's ramp when a secondary role
exists, and otherwise the *lightest* (index 2) shade of primary's ramp —
the source indexes `[1]` and `[2]` where the spec claims lightest/darkest.
Ramps are (darker, base, lighter), always of length 3. -/
theorem generate_palette_new_accent {colors : ColorsInput} {mode harmony : String}
    {hs sa la : ℚ} {p : Palette}
    (h : generate_palette colors mode harmony hs sa la = .ok p) :
    (∀ ramp, p.roles.lookup "secondary" = some ramp →
        ramp.length = 3 ∧ p.brand.lookup "newAccent" = some (ramp.getD 1 "")) ∧
    (p.roles.lookup "secondary" = none →
      ∀ ramp, p.roles.lookup "primary" = some ramp →
        ramp.length = 3 ∧ p.brand.lookup "newAccent" = some (ramp.getD 2 "")) := by
  rcases generate_palette_ok h with ⟨hsl0, hsl1, h0, h1, hroles, hsem, hsurf, hbrand⟩
  rcases brandColors_some_elim hbrand with ⟨pShades, pHsl, hps, hph, hb⟩
  have ramp_len : ∀ k ramp, p.roles.lookup k = some ramp → ramp.length = 3 := by
    intro k ramp hr
    rw [hroles, rampsOf_lookup] at hr
    cases hv : (applyAdjust hsl1 hs sa la).lookup k with
    | none => rw [hv] at hr; exact Option.noConfusion hr
    | some v =>
      rw [hv] at hr
      cases hr
      rfl
  constructor
  · intro ramp hr
    refine ⟨ramp_len _ _ hr, ?_⟩
    rw [hroles] at hr
    rw [hb, lookup_brand_newAccent, hr]
  · intro hnone ramp hr
    refine ⟨ramp_len _ _ hr, ?_⟩
    rw [hroles] at hr hnone
    rw [hr] at hps
    cases hps
    rw [hb, lookup_brand_newAccent, hnone]

/-- C2 counterexample to the claim as stated: for the seed `"#ff0000"`,
secondary's ramp is `["#006666", "#00ffff", "#99ffff"]` (darker, base,
lighter); the claim says `newAccent` is the lightest shade `"#99ffff"`, but
the source's `palette['secondary'][1]` yields the base shade `"#00ffff"`. -/
theorem generate_palette_new_accent_counterexample :
    (generate_palette (.seed "#ff0000") "light" "1" 0 0 0 =
      .ok ⟨[("primary", ["#660000", "#ff0000", "#ff9999"]),
            ("secondary", ["#006666", "#00ffff", "#99ffff"])],
           [("error", "#ff0000"), ("success", "#00ff00"), ("info", "#00aaff"),
            ("warning", "#ffaa00")],
           [("background", "#f2f2f2"), ("onSurface", "#191919"),
            ("onSurfaceVariant", "#7f7f7f"), ("inverseOnSurface", "#e5e5e5")],
           [("newPrimary", "#ff0000"), ("inversePrimary", "#00ffff"),
            ("newAccent", "#00ffff")]⟩) ∧
    ("#00ffff" : String) ≠ "#99ffff" := by
  have hp : generate_palette (.seed "#ff0000") "light" "1" 0 0 0 =
      .ok ⟨[("primary", ["#660000", "#ff0000", "#ff9999"]),
            ("secondary", ["#006666", "#00ffff", "#99ffff"])],
           [("error", "#ff0000"), ("success", "#00ff00"), ("info", "#00aaff"),
            ("warning", "#ffaa00")],
           [("background", "#f2f2f2"), ("onSurface", "#191919"),
            ("onSurfaceVariant", "#7f7f7f"), ("inverseOnSurface", "#e5e5e5")],
           [("newPrimary", "#ff0000"), ("inversePrimary", "#00ffff"),
            ("newAccent", "#00ffff")]⟩ := by decide
  exact ⟨hp, by decide⟩

/-- C2 witness: the amended rule applied to a concrete successful build. -/
theorem generate_palette_new_accent_witness :
    ∃ p, generate_palette (.seed "#ff0000") "light" "1" 0 0 0 = .ok p ∧
      p.brand.lookup "newAccent" =
        some ((["#006666", "#00ffff", "#99ffff"] : List String).getD 1 "") := by
  have hp : generate_palette (.seed "#ff0000") "light" "1" 0 0 0 =
      .ok ⟨[("primary", ["#660000", "#ff0000", "#ff9999"]),
            ("secondary", ["#006666", "#00ffff", "#99ffff"])],
           [("error", "#ff0000"), ("success", "#00ff00"), ("info", "#00aaff"),
            ("warning", "#ffaa00")],
           [("background", "#f2f2f2"), ("onSurface", "#191919"),
            ("onSurfaceVariant", "#7f7f7f"), ("inverseOnSurface", "#e5e5e5")],
           [("newPrimary", "#ff0000"), ("inversePrimary", "#00ffff"),
            ("newAccent", "#00ffff")]⟩ := by decide
  exact ⟨_, hp,
    ((generate_palette_new_accent hp).1 ["#006666", "#00ffff", "#99ffff"] (by decide)).2⟩

/-- C3: in every successfully built palette, `inversePrimary` is the hex
rendering of the primary HSL with the global adjustment applied and an
additional +180° hue shift stacked on the already-adjusted hue; the extra
shift leaves the adjusted saturation and lightness unchanged. -/
theorem generate_palette_inverse_primary {colors : ColorsInput} {mode harmony : String}
    {hs sa la : ℚ} {p : Palette}
    (h : generate_palette colors mode harmony hs sa la = .ok p)
    (c : String) (hc : (normalizeColors colors).lookup "primary" = some c)
    (rgb : Rgb) (hrgb : hex_to_rgb c = some rgb) :
    p.brand.lookup "inversePrimary" =
      some (renderShade (adjust_hsl (adjust_hsl (rgb_to_hsl rgb) hs sa la) 180 0 0)) ∧
    (adjust_hsl (adjust_hsl (rgb_to_hsl rgb) hs sa la) 180 0 0).2.1 =
      (adjust_hsl (rgb_to_hsl rgb) hs sa la).2.1 ∧
    (adjust_hsl (adjust_hsl (rgb_to_hsl rgb) hs sa la) 180 0 0).2.2 =
      (adjust_hsl (rgb_to_hsl rgb) hs sa la).2.2 := by
  rcases generate_palette_ok h with ⟨hsl0, hsl1, h0, h1, hroles, hsem, hsurf, hbrand⟩
  rcases brandColors_some_elim hbrand with ⟨pShades, pHsl, hps, hph, hb⟩
  have h0p : hsl0.lookup "primary" = some (rgb_to_hsl rgb) := by
    rw [toHsl_lookup h0, hc]
    simp [hrgb]
  have h1p : hsl1.lookup "primary" = some (rgb_to_hsl rgb) := deriveMissing_lookup h1 h0p
  have hap : (applyAdjust hsl1 hs sa la).lookup "primary" =
      some (adjust_hsl (rgb_to_hsl rgb) hs sa la) := by
    rw [applyAdjust_lookup, h1p]
    rfl
  rw [hap] at hph
  cases hph
  refine ⟨?_, ?_, ?_⟩
  · rw [hb, lookup_brand_inversePrimary]
  · exact (adjust_hsl_hue_only (adjust_hsl (rgb_to_hsl rgb) hs sa la) 180
      (clamp_nonneg _) (clamp_le _) (clamp_nonneg _) (clamp_le _)).1
  · exact (adjust_hsl_hue_only (adjust_hsl (rgb_to_hsl rgb) hs sa la) 180
      (clamp_nonneg _) (clamp_le _) (clamp_nonneg _) (clamp_le _)).2

/-- C3 witness: for the seed `"#ff0000"` with no global adjustment,
`inversePrimary` is the +180°-shifted primary, `"#00ffff"`. -/
theorem generate_palette_inverse_primary_witness :
    ∃ p, generate_palette (.seed "#ff0000") "light" "1" 0 0 0 = .ok p ∧
      p.brand.lookup "inversePrimary" =
        some (renderShade (adjust_hsl (adjust_hsl (rgb_to_hsl (255, 0, 0)) 0 0 0) 180 0 0)) := by
  have hp : generate_palette (.seed "#ff0000") "light" "1" 0 0 0 =
      .ok ⟨[("primary", ["#660000", "#ff0000", "#ff9999"]),
            ("secondary", ["#006666", "#00ffff", "#99ffff"])],
           [("error", "#ff0000"), ("success", "#00ff00"), ("info", "#00aaff"),
            ("warning", "#ffaa00")],
           [("background", "#f2f2f2"), ("onSurface", "#191919"),
            ("onSurfaceVariant", "#7f7f7f"), ("inverseOnSurface", "#e5e5e5")],
           [("newPrimary", "#ff0000"), ("inversePrimary", "#00ffff"),
            ("newAccent", "#00ffff")]⟩ := by decide
  exact ⟨_, hp,
    (generate_palette_inverse_primary hp "#ff0000" (by decide) (255, 0, 0) (by decide)).1⟩

/-! ### Hex formatting and parsing -/

theorem fmt02x_roundtrip : ∀ n : Fin 256, pyIntHex (fmt02x ((n : ℕ) : ℤ)) = some ((n : ℕ) : ℤ) := by
  decide

theorem fmt02x_shape :
    ∀ n : Fin 256,
      (fmt02x ((n : ℕ) : ℤ)).data.length = 2 ∧ (fmt02x ((n : ℕ) : ℤ)).data.all isLowerHexDigit := by
  decide

theorem int_as_fin {n : ℤ} (h0 : 0 ≤ n) (h1 : n ≤ 255) : ∃ m : Fin 256, ((m : ℕ) : ℤ) = n :=
  ⟨⟨n.toNat, by omega⟩, by simp [Int.toNat_of_nonneg h0]⟩

theorem rgb_to_hex_data (rgb : Rgb) :
    (rgb_to_hex rgb).data =
      '#' :: ((fmt02x rgb.1).data ++ ((fmt02x rgb.2.1).data ++ (fmt02x rgb.2.2).data)) := by
  simp [rgb_to_hex, String.data_append]

theorem slices_helper {A B C : List Char} (hA : A.length = 2) (hB : B.length = 2)
    (hC : C.length = 2) :
    ((('#' :: (A ++ (B ++ C))).drop 1).take 2 = A) ∧
    ((('#' :: (A ++ (B ++ C))).drop 3).take 2 = B) ∧
    ((('#' :: (A ++ (B ++ C))).drop 5).take 2 = C) := by
  rcases List.length_eq_two.1 hA with ⟨a1, a2, rfl⟩
  rcases List.length_eq_two.1 hB with ⟨b1, b2, rfl⟩
  rcases List.length_eq_two.1 hC with ⟨c1, c2, rfl⟩
  simp

/-- C8: for every RgbColor with integer channels in `[0, 255]`,
`hex_to_rgb (rgb_to_hex r) = r` — the hex rendering round-trips losslessly. -/
theorem hex_rgb_roundtrip (r g b : ℤ)
    (hr0 : 0 ≤ r) (hr1 : r ≤ 255) (hg0 : 0 ≤ g) (hg1 : g ≤ 255)
    (hb0 : 0 ≤ b) (hb1 : b ≤ 255) :
    hex_to_rgb (rgb_to_hex (r, g, b)) = some (r, g, b) := by
  obtain ⟨na, ha⟩ := int_as_fin hr0 hr1
  obtain ⟨nb, hb⟩ := int_as_fin hg0 hg1
  obtain ⟨nc, hc⟩ := int_as_fin hb0 hb1
  subst ha hb hc
  have hsl := slices_helper (fmt02x_shape na).1 (fmt02x_shape nb).1 (fmt02x_shape nc).1
  have hs1 : strSlice (rgb_to_hex (((na : ℕ) : ℤ), ((nb : ℕ) : ℤ), ((nc : ℕ) : ℤ))) 1 3 =
      fmt02x ((na : ℕ) : ℤ) := by
    unfold strSlice
    rw [rgb_to_hex_data]
    exact congrArg String.mk hsl.1
  have hs2 : strSlice (rgb_to_hex (((na : ℕ) : ℤ), ((nb : ℕ) : ℤ), ((nc : ℕ) : ℤ))) 3 5 =
      fmt02x ((nb : ℕ) : ℤ) := by
    unfold strSlice
    rw [rgb_to_hex_data]
    exact congrArg String.mk hsl.2.1
  have hs3 : strSlice (rgb_to_hex (((na : ℕ) : ℤ), ((nb : ℕ) : ℤ), ((nc : ℕ) : ℤ))) 5 7 =
      fmt02x ((nc : ℕ) : ℤ) := by
    unfold strSlice
    rw [rgb_to_hex_data]
    exact congrArg String.mk hsl.2.2
  unfold hex_to_rgb
  rw [hs1, hs2, hs3, fmt02x_roundtrip na, fmt02x_roundtrip nb, fmt02x_roundtrip nc]

/-- C8 witness: the round-trip at `(255, 0, 160)`. -/
theorem hex_rgb_roundtrip_witness :
    hex_to_rgb (rgb_to_hex (255, 0, 160)) = some (255, 0, 160) :=
  hex_rgb_roundtrip 255 0 160 (by norm_num) (by norm_num) (by norm_num) (by norm_num)
    (by norm_num) (by norm_num)

/-- The 22 characters `int(s, 16)` accepts as hexadecimal digits:
`0`-`9` (codes 48-57), `a`-`f` (97-102) and `A`-`F` (65-70). -/
def hexChars : List Char :=
  (List.range 10).map (fun n => Char.ofNat (48 + n)) ++
    ((List.range 6).map (fun n => Char.ofNat (97 + n)) ++
      (List.range 6).map (fun n => Char.ofNat (65 + n)))

theorem pyIntHex_pair :
    ∀ c1 ∈ hexChars, ∀ c2 ∈ hexChars,
      pyIntHex (String.mk [c1, c2]) =
        some (16 * (((hexDigitVal c1).getD 0 : ℕ) : ℤ) + (((hexDigitVal c2).getD 0 : ℕ) : ℤ)) := by
  decide

/-- C4 (amended): `hex_to_rgb` parses the character pairs at positions
`[1:3]`, `[3:5]`, `[5:7]` as hex bytes and never inspects the leading
character or the overall format: on *any* 7-character string whose three
pairs are hex digits it returns the three parsed bytes — including a valid
`HexColor` (leading `'#'`), but equally a string with any other leading
character, contrary to the claimed `FormatError`. -/
theorem hex_to_rgb_parses (c0 c1 c2 c3 c4 c5 c6 : Char)
    (h1 : c1 ∈ hexChars) (h2 : c2 ∈ hexChars) (h3 : c3 ∈ hexChars)
    (h4 : c4 ∈ hexChars) (h5 : c5 ∈ hexChars) (h6 : c6 ∈ hexChars) :
    hex_to_rgb (String.mk [c0, c1, c2, c3, c4, c5, c6]) =
      some (16 * (((hexDigitVal c1).getD 0 : ℕ) : ℤ) + (((hexDigitVal c2).getD 0 : ℕ) : ℤ),
            16 * (((hexDigitVal c3).getD 0 : ℕ) : ℤ) + (((hexDigitVal c4).getD 0 : ℕ) : ℤ),
            16 * (((hexDigitVal c5).getD 0 : ℕ) : ℤ) + (((hexDigitVal c6).getD 0 : ℕ) : ℤ)) := by
  have hs1 : strSlice (String.mk [c0, c1, c2, c3, c4, c5, c6]) 1 3 = String.mk [c1, c2] := rfl
  have hs2 : strSlice (String.mk [c0, c1, c2, c3, c4, c5, c6]) 3 5 = String.mk [c3, c4] := rfl
  have hs3 : strSlice (String.mk [c0, c1, c2, c3, c4, c5, c6]) 5 7 = String.mk [c5, c6] := rfl
  unfold hex_to_rgb
  rw [hs1, hs2, hs3, pyIntHex_pair c1 h1 c2 h2, pyIntHex_pair c3 h3 c4 h4,
    pyIntHex_pair c5 h5 c6 h6]

/-- C4 counterexample to the claim as stated: `"0ff0000"` does not start
with `'#'`, so the claim requires a `FormatError`; the source parses it
successfully to `(255, 0, 0)`. -/
theorem hex_to_rgb_no_validation :
    hex_to_rgb "0ff0000" = some (255, 0, 0) ∧
    ("0ff0000" : String).data.head? = some '0' ∧ ('0' : Char) ≠ '#' := by decide

/-- C4 witness: the amended parse rule on the valid HexColor `"#4287f5"`. -/
theorem hex_to_rgb_parses_witness :
    hex_to_rgb (String.mk ['#', '4', '2', '8', '7', 'f', '5']) = some (66, 135, 245) := by
  rw [hex_to_rgb_parses '#' '4' '2' '8' '7' 'f' '5' (by decide) (by decide) (by decide)
    (by decide) (by decide) (by decide)]
  decide

/-! ### Range facts for the HSL → hex rendering (claim C5) -/

theorem colorsys_v_core_mem {m1 m2 : ℚ} (u : ℚ) (hu0 : 0 ≤ u) (hu1 : u < 1)
    (h0 : 0 ≤ m1) (h12 : m1 ≤ m2) (h21 : m2 ≤ 1) :
    0 ≤ colorsys_v_core m1 m2 u ∧ colorsys_v_core m1 m2 u ≤ 1 := by
  unfold colorsys_v_core
  split_ifs with hc1 hc2 hc3
  · constructor <;> nlinarith
  · exact ⟨le_trans h0 h12, h21⟩
  · constructor <;> nlinarith
  · exact ⟨h0, le_trans h12 h21⟩

theorem colorsys_v_mem {m1 m2 : ℚ} (hue : ℚ)
    (h0 : 0 ≤ m1) (h12 : m1 ≤ m2) (h21 : m2 ≤ 1) :
    0 ≤ colorsys_v m1 m2 hue ∧ colorsys_v m1 m2 hue ≤ 1 :=
  colorsys_v_core_mem (pymod hue 1) (pymod_nonneg _ (by norm_num))
    (pymod_lt _ (by norm_num)) h0 h12 h21

theorem hls_m_bounds {l s : ℚ} (hl0 : 0 ≤ l) (hl1 : l ≤ 1) (hs0 : 0 ≤ s) (hs1 : s ≤ 1) :
    0 ≤ 2 * l - (if l ≤ 1/2 then l * (1 + s) else l + s - l * s) ∧
    2 * l - (if l ≤ 1/2 then l * (1 + s) else l + s - l * s) ≤
      (if l ≤ 1/2 then l * (1 + s) else l + s - l * s) ∧
    (if l ≤ 1/2 then l * (1 + s) else l + s - l * s) ≤ 1 := by
  split_ifs with hc
  · exact ⟨by nlinarith, by nlinarith, by nlinarith⟩
  · exact ⟨by nlinarith, by nlinarith, by nlinarith⟩

theorem hls_to_rgb_eq {h l s : ℚ} (hs : ¬ s = 0) :
    hls_to_rgb h l s =
      (colorsys_v (2 * l - (if l ≤ 1/2 then l * (1 + s) else l + s - l * s))
        (if l ≤ 1/2 then l * (1 + s) else l + s - l * s) (h + 1/3),
       colorsys_v (2 * l - (if l ≤ 1/2 then l * (1 + s) else l + s - l * s))
        (if l ≤ 1/2 then l * (1 + s) else l + s - l * s) h,
       colorsys_v (2 * l - (if l ≤ 1/2 then l * (1 + s) else l + s - l * s))
        (if l ≤ 1/2 then l * (1 + s) else l + s - l * s) (h - 1/3)) := by
  unfold hls_to_rgb
  rw [if_neg hs]

theorem hls_to_rgb_mem {h l s : ℚ} (hl0 : 0 ≤ l) (hl1 : l ≤ 1) (hs0 : 0 ≤ s) (hs1 : s ≤ 1) :
    (0 ≤ (hls_to_rgb h l s).1 ∧ (hls_to_rgb h l s).1 ≤ 1) ∧
    (0 ≤ (hls_to_rgb h l s).2.1 ∧ (hls_to_rgb h l s).2.1 ≤ 1) ∧
    (0 ≤ (hls_to_rgb h l s).2.2 ∧ (hls_to_rgb h l s).2.2 ≤ 1) := by
  by_cases hs : s = 0
  · subst hs
    unfold hls_to_rgb
    rw [if_pos rfl]
    exact ⟨⟨hl0, hl1⟩, ⟨hl0, hl1⟩, ⟨hl0, hl1⟩⟩
  · obtain ⟨hm1, hm12, hm2⟩ := hls_m_bounds hl0 hl1 hs0 hs1
    rw [hls_to_rgb_eq hs]
    exact ⟨colorsys_v_mem _ hm1 hm12 hm2, colorsys_v_mem _ hm1 hm12 hm2,
      colorsys_v_mem _ hm1 hm12 hm2⟩

theorem pytrunc_mem {x : ℚ} (h0 : 0 ≤ x) (h1 : x ≤ 1) :
    0 ≤ pytrunc (x * 255) ∧ pytrunc (x * 255) ≤ 255 := by
  have hx0 : (0 : ℚ) ≤ x * 255 := by positivity
  unfold pytrunc
  rw [if_pos hx0]
  refine ⟨Int.floor_nonneg.2 hx0, ?_⟩
  have hx1 : (x * 255 : ℚ) ≤ 255 := by nlinarith
  have h255 : (⌊(255 : ℚ)⌋ : ℤ) = 255 := by norm_num
  calc ⌊x * 255⌋ ≤ ⌊(255 : ℚ)⌋ := Int.floor_le_floor hx1
    _ = 255 := h255

theorem hsl_to_rgb_mem (q : Hsl) (hs0 : 0 ≤ q.2.1) (hs1 : q.2.1 ≤ 100)
    (hl0 : 0 ≤ q.2.2) (hl1 : q.2.2 ≤ 100) :
    (0 ≤ (hsl_to_rgb q).1 ∧ (hsl_to_rgb q).1 ≤ 255) ∧
    (0 ≤ (hsl_to_rgb q).2.1 ∧ (hsl_to_rgb q).2.1 ≤ 255) ∧
    (0 ≤ (hsl_to_rgb q).2.2 ∧ (hsl_to_rgb q).2.2 ≤ 255) := by
  have hl0q : (0 : ℚ) ≤ q.2.2 / 100 := by positivity
  have hl1q : q.2.2 / 100 ≤ 1 := by linarith [(div_le_one (by norm_num : (0:ℚ) < 100)).2 hl1]
  have hs0q : (0 : ℚ) ≤ q.2.1 / 100 := by positivity
  have hs1q : q.2.1 / 100 ≤ 1 := by linarith [(div_le_one (by norm_num : (0:ℚ) < 100)).2 hs1]
  obtain ⟨hr, hg, hb⟩ := hls_to_rgb_mem (h := q.1 / 360) hl0q hl1q hs0q hs1q
  exact ⟨pytrunc_mem hr.1 hr.2, pytrunc_mem hg.1 hg.2, pytrunc_mem hb.1 hb.2⟩

theorem fmt02x_shape_int {n : ℤ} (h0 : 0 ≤ n) (h1 : n ≤ 255) :
    (fmt02x n).data.length = 2 ∧ (fmt02x n).data.all isLowerHexDigit := by
  obtain ⟨m, hm⟩ := int_as_fin h0 h1
  rw [← hm]
  exact fmt02x_shape m

theorem isValidHex_cons (rest : List Char) :
    isValidHex ⟨'#' :: rest⟩ = (rest.length == 6 && rest.all isLowerHexDigit) := rfl

theorem rgb_to_hex_valid (rgb : Rgb)
    (h : (0 ≤ rgb.1 ∧ rgb.1 ≤ 255) ∧ (0 ≤ rgb.2.1 ∧ rgb.2.1 ≤ 255) ∧
      (0 ≤ rgb.2.2 ∧ rgb.2.2 ≤ 255)) :
    isValidHex (rgb_to_hex rgb) := by
  obtain ⟨⟨h1, h2⟩, ⟨h3, h4⟩, h5, h6⟩ := h
  have hA := fmt02x_shape_int h1 h2
  have hB := fmt02x_shape_int h3 h4
  have hC := fmt02x_shape_int h5 h6
  have heq : rgb_to_hex rgb =
      ⟨'#' :: ((fmt02x rgb.1).data ++ ((fmt02x rgb.2.1).data ++ (fmt02x rgb.2.2).data))⟩ :=
    String.ext (rgb_to_hex_data rgb)
  rw [heq, isValidHex_cons]
  simp [List.length_append, hA.1, hB.1, hC.1, List.all_append, hA.2, hB.2, hC.2]

/-- Validity of the hex rendering of any HSL triple whose saturation and
lightness are in `[0, 100]` (the hue is unconstrained: `_v` wraps it). -/
theorem renderShade_valid (q : Hsl) (hs0 : 0 ≤ q.2.1) (hs1 : q.2.1 ≤ 100)
    (hl0 : 0 ≤ q.2.2) (hl1 : q.2.2 ≤ 100) : isValidHex (renderShade q) :=
  rgb_to_hex_valid (hsl_to_rgb q) (hsl_to_rgb_mem q hs0 hs1 hl0 hl1)

theorem ramps_lookup_form {m : List (String × Hsl)} {hs sa la : ℚ} {k : String}
    {shades : List String}
    (h : (rampsOf (applyAdjust m hs sa la)).lookup k = some shades) :
    ∃ v : Hsl, shades =
      [renderShade (adjust_hsl (adjust_hsl v hs sa la) 0 0 (-30)),
       renderShade (adjust_hsl v hs sa la),
       renderShade (adjust_hsl (adjust_hsl v hs sa la) 0 0 30)] := by
  rw [rampsOf_lookup, applyAdjust_lookup] at h
  cases hv : m.lookup k with
  | none => rw [hv] at h; exact Option.noConfusion h
  | some v =>
    rw [hv] at h
    simp only [Option.map_some'] at h
    injection h with h
    exact ⟨v, h.symm⟩

/-- C5: every final color value of a successfully built palette — the role
shade ramp entries and the semantic, surface and brand values — is a valid
`HexColor`: `'#'` followed by exactly 6 lowercase hexadecimal digits. -/
theorem generate_palette_valid_hex {colors : ColorsInput} {mode harmony : String}
    {hs sa la : ℚ} {p : Palette}
    (h : generate_palette colors mode harmony hs sa la = .ok p) :
    ∀ s ∈ paletteStrings p, isValidHex s := by
  rcases generate_palette_ok h with ⟨hsl0, hsl1, h0, h1, hroles, hsem, hsurf, hbrand⟩
  rcases brandColors_some_elim hbrand with ⟨pShades, pHsl, hps, hph, hb⟩
  have hadj : ∀ (q : Hsl) (a b2 c : ℚ), isValidHex (renderShade (adjust_hsl q a b2 c)) :=
    fun q a b2 c =>
      renderShade_valid (adjust_hsl q a b2 c) (clamp_nonneg _) (clamp_le _) (clamp_nonneg _)
        (clamp_le _)
  have hsh : ∀ (v : Hsl), ∀ sh ∈ generate_shades (adjust_hsl v hs sa la),
      isValidHex (renderShade sh) := by
    intro v sh hmem
    simp only [generate_shades, List.mem_cons, List.not_mem_nil, or_false] at hmem
    rcases hmem with rfl | rfl | rfl
    · exact hadj (adjust_hsl v hs sa la) 0 0 (-30)
    · exact hadj v hs sa la
    · exact hadj (adjust_hsl v hs sa la) 0 0 30
  intro s hsmem
  simp only [paletteStrings, List.mem_append] at hsmem
  rcases hsmem with ((hr | hsm) | hsf) | hbm
  · rw [hroles] at hr
    simp only [rampsOf, applyAdjust, List.map_map, List.mem_flatten, List.mem_map,
      Function.comp] at hr
    rcases hr with ⟨ramp, ⟨kv, hkv, hramp⟩, hsr⟩
    rw [← hramp] at hsr
    simp only [List.mem_map] at hsr
    rcases hsr with ⟨sh, hshm, rfl⟩
    exact hsh kv.2 sh hshm
  · rw [hsem] at hsm
    simp only [semanticColors, semantic_hues, List.map_cons, List.map_nil, List.mem_cons,
      List.not_mem_nil, or_false] at hsm
    rcases hsm with rfl | rfl | rfl | rfl <;> exact hadj _ hs sa la
  · rw [hsurf] at hsf
    have hsv : ∀ L : ℚ, 0 ≤ L → L ≤ 100 → isValidHex (renderShade (0, 0, L)) := by
      intro L h0L h1L
      exact renderShade_valid (0, 0, L) (by norm_num) (by norm_num) h0L h1L
    simp only [surfaceColors, List.map_cons, List.map_nil, List.mem_cons, List.not_mem_nil,
      or_false] at hsf
    rcases hsf with rfl | rfl | rfl | rfl
    · exact hsv _ (by split_ifs <;> norm_num) (by split_ifs <;> norm_num)
    · exact hsv _ (by split_ifs <;> norm_num) (by split_ifs <;> norm_num)
    · exact hsv 50 (by norm_num) (by norm_num)
    · exact hsv _ (by split_ifs <;> norm_num) (by split_ifs <;> norm_num)
  · rw [hb] at hbm
    simp only [List.map_cons, List.map_nil, List.mem_cons, List.not_mem_nil, or_false] at hbm
    obtain ⟨v, hv⟩ := ramps_lookup_form hps
    rcases hbm with rfl | rfl | rfl
    · rw [hv]
      exact hadj v hs sa la
    · rw [applyAdjust_lookup] at hph
      cases hv1 : hsl1.lookup "primary" with
      | none => rw [hv1] at hph; exact Option.noConfusion hph
      | some v1 =>
        rw [hv1] at hph
        simp only [Option.map_some'] at hph
        injection hph with hph
        rw [← hph]
        exact hadj (adjust_hsl v1 hs sa la) 180 0 0
    · cases hsec : (rampsOf (applyAdjust hsl1 hs sa la)).lookup "secondary" with
      | some sShades =>
        obtain ⟨v2, hv2⟩ := ramps_lookup_form hsec
        show isValidHex (sShades.getD 1 "") = true
        rw [hv2]
        exact hadj v2 hs sa la
      | none =>
        show isValidHex (pShades.getD 2 "") = true
        rw [hv]
        exact hadj (adjust_hsl v hs sa la) 0 0 30

/-- C5 witness: every value of the palette built from the seed `"#ff0000"`
is a valid HexColor. -/
theorem generate_palette_valid_hex_witness :
    (paletteStrings
      ⟨[("primary", ["#660000", "#ff0000", "#ff9999"]),
        ("secondary", ["#006666", "#00ffff", "#99ffff"])],
       [("error", "#ff0000"), ("success", "#00ff00"), ("info", "#00aaff"),
        ("warning", "#ffaa00")],
       [("background", "#f2f2f2"), ("onSurface", "#191919"),
        ("onSurfaceVariant", "#7f7f7f"), ("inverseOnSurface", "#e5e5e5")],
       [("newPrimary", "#ff0000"), ("inversePrimary", "#00ffff"),
        ("newAccent", "#00ffff")]⟩).all isValidHex = true := by
  have hp : generate_palette (.seed "#ff0000") "light" "1" 0 0 0 =
      .ok ⟨[("primary", ["#660000", "#ff0000", "#ff9999"]),
            ("secondary", ["#006666", "#00ffff", "#99ffff"])],
           [("error", "#ff0000"), ("success", "#00ff00"), ("info", "#00aaff"),
            ("warning", "#ffaa00")],
           [("background", "#f2f2f2"), ("onSurface", "#191919"),
            ("onSurfaceVariant", "#7f7f7f"), ("inverseOnSurface", "#e5e5e5")],
           [("newPrimary", "#ff0000"), ("inversePrimary", "#00ffff"),
            ("newAccent", "#00ffff")]⟩ := by decide
  exact List.all_eq_true.2 (fun s hs => generate_palette_valid_hex hp s hs)
